import Mathlib

/-!
Shallow embedding of the reinforcement-learning agents in
src/freeway/src/agents.py and src/marianna/project01-rl/src/agents.py.

States and actions are modelled as natural numbers; Python floats are
modelled as rationals.  The defaultdict-backed tables (Q, Nsa,
state_visits, pi, E) are modelled as total functions returning the
default value, which matches defaultdict read semantics; the set of keys
materialised in the eligibility-trace dict E (iterated by `for s in
self.E`) is carried explicitly as a list.  Calls to numpy randomness are
modelled by oracle parameters: `u` is the uniform draw in [0, 1) feeding
`np.random.choice(_, p=[1 - eps, eps])`, and `uact` is the result of the
uniform action draw `np.random.choice(available_actions)`.
-/

/-- Model of `np.max` over the length-`k` array `[f 0, ..., f (k-1)]`
(numpy errors on an empty array; for `k = 0` this returns `f 0`, a case
never exercised below). -/
def npMax (f : ℕ → ℚ) (k : ℕ) : ℚ :=
  (List.range k).foldl (fun m a => max m (f a)) (f 0)

/-- Model of `np.min` over the length-`k` array `[f 0, ..., f (k-1)]`. -/
def npMin (f : ℕ → ℚ) (k : ℕ) : ℚ :=
  (List.range k).foldl (fun m a => min m (f a)) (f 0)

/-- Model of `np.argmax` over the length-`k` array: index of the first
occurrence of the maximum. -/
def npArgmax (f : ℕ → ℚ) (k : ℕ) : ℕ :=
  (List.range k).foldl (fun best a => if f best < f a then a else best) 0

/-- Model of `np.random.choice(np.arange(2), p=[1 - eps, eps])` given the
underlying uniform draw `u` in [0, 1): numpy inverts the cdf `[1 - eps, 1]`,
returning 0 when `u < 1 - eps` and 1 otherwise. -/
def npChoice2 (eps u : ℚ) : ℕ :=
  if u < 1 - eps then 0 else 1

/-- Model of `np.random.choice(np.arange(n), p=[1 - eps, eps])`: numpy
raises `ValueError` when the probability vector length (2) differs from
the population size `n`; otherwise it behaves as `npChoice2`. -/
def npChoiceProb (n : ℕ) (eps u : ℚ) : Except String ℕ :=
  if n = 2 then Except.ok (npChoice2 eps u)
  else Except.error "a and p must have same size"

/-- Pointwise update of a one-key table (defaultdict write). -/
def upd1 {α : Type} (f : ℕ → α) (x : ℕ) (v : α) : ℕ → α :=
  fun y => if y = x then v else f y

/-- Pointwise update of a two-key table (write to `f[x][y]`). -/
def upd2 {α : Type} (f : ℕ → ℕ → α) (x y : ℕ) (v : α) : ℕ → ℕ → α :=
  fun x2 y2 => if x2 = x ∧ y2 = y then v else f x2 y2

namespace Freeway

/-- Attributes of `MonteCarloControl` (src/freeway/src/agents.py, class at
line 36). -/
structure MCCState where
  gamma : ℚ
  available_actions : ℕ
  N0 : ℚ
  Q : ℕ → ℕ → ℚ
  Nsa : ℕ → ℕ → ℕ
  state_visits : ℕ → ℕ
  pi : ℕ → ℕ

/-- `MonteCarloControl.__init__`: zero tables and the forward-bias
default policy `pi = defaultdict(lambda: 1)`. -/
def MonteCarloControl.init (gamma : ℚ) (available_actions : ℕ) (N0 : ℚ) : MCCState :=
  { gamma := gamma
    available_actions := available_actions
    N0 := N0
    Q := fun _ _ => 0
    Nsa := fun _ _ => 0
    state_visits := fun _ => 0
    pi := fun _ => 1 }

/-- `MonteCarloControl.act` (lines 47-55): epsilon-greedy draw; the method
performs no assignment to any counter, so the returned state is the input
state. -/
def MonteCarloControl.act (σ : MCCState) (state : ℕ) (u : ℚ) (uact : ℕ) :
    ℕ × MCCState :=
  let epsilon := σ.N0 / (σ.N0 + (σ.state_visits state : ℚ))
  let action := if npChoice2 epsilon u ≠ 0 then uact else σ.pi state
  (action, σ)

/-- Episode container consumed by `update_policy`: arrays `S`, `A`, `R`
and the `length` attribute. -/
structure Episode where
  S : List ℕ
  A : List ℕ
  R : List ℚ
  length : ℕ

/-- Body of the `for t in reversed(range(episode.length - 1))` loop of
`MonteCarloControl.update_policy` (lines 63-71), acting on the running
return `G` and the agent state. -/
def MonteCarloControl.updateStep (ep : Episode) (acc : ℚ × MCCState) (t : ℕ) :
    ℚ × MCCState :=
  let G := acc.1
  let σ := acc.2
  let s := ep.S.getD t 0
  let a := ep.A.getD t 0
  let σ1 : MCCState :=
    { σ with
      state_visits := upd1 σ.state_visits s (σ.state_visits s + 1)
      Nsa := upd2 σ.Nsa s a (σ.Nsa s a + 1) }
  let alpha : ℚ := 1 / ((σ1.Nsa s a : ℚ))
  let G2 := σ.gamma * G + ep.R.getD (t + 1) 0
  let σ2 : MCCState :=
    { σ1 with Q := upd2 σ1.Q s a (σ1.Q s a + alpha * (G2 - σ1.Q s a)) }
  let σ3 : MCCState :=
    { σ2 with pi := upd1 σ2.pi s (npArgmax (σ2.Q s) σ2.available_actions) }
  (G2, σ3)

/-- `MonteCarloControl.update_policy` (lines 57-75): backward pass over
the episode starting from `G = 0`.  The Python method ends by returning
the externally computed episode summaries, which are not part of the
agent state and are omitted here. -/
def MonteCarloControl.update_policy (σ : MCCState) (ep : Episode) : MCCState :=
  (((List.range (ep.length - 1)).reverse).foldl
    (MonteCarloControl.updateStep ep) (0, σ)).2

/-- Attributes of `QLearning` (src/freeway/src/agents.py line 127; the
copy in src/marianna/project01-rl/src/agents.py line 76 has the same
attributes). -/
structure QLState where
  gamma : ℚ
  available_actions : ℕ
  N0 : ℚ
  Q : ℕ → ℕ → ℚ
  state_visits : ℕ → ℕ
  Nsa : ℕ → ℕ → ℕ

/-- `QLearning.act` (freeway copy, lines 137-150): the explore draw uses
`np.arange(2)` with `p=[1 - epsilon, epsilon]`; a truthy draw explores
(returning the uniform action draw `uact`), an all-zero value row selects
the forward bias action 1, otherwise argmax; then both counters are
incremented. -/
def QLearning.act (σ : QLState) (state : ℕ) (u : ℚ) (uact : ℕ) :
    ℕ × QLState :=
  let epsilon := σ.N0 / (σ.N0 + (σ.state_visits state : ℚ))
  let action :=
    if npChoice2 epsilon u ≠ 0 then uact
    else if npMax (σ.Q state) σ.available_actions = 0 ∧
            npMin (σ.Q state) σ.available_actions = 0 then 1
    else npArgmax (σ.Q state) σ.available_actions
  (action,
    { σ with
      state_visits := upd1 σ.state_visits state (σ.state_visits state + 1)
      Nsa := upd2 σ.Nsa state action (σ.Nsa state action + 1) })

/-- `QLearning.update_Q` (freeway copy, lines 152-154; the marianna copy,
lines 103-108, spells the same assignment with `=` instead of `+=`). -/
def QLearning.update_Q (σ : QLState) (old_state new_state action : ℕ)
    (reward : ℚ) : QLState :=
  let alpha : ℚ := 1 / ((σ.Nsa old_state action : ℚ))
  { σ with
    Q := upd2 σ.Q old_state action
      (σ.Q old_state action +
        alpha * (reward + σ.gamma * npMax (σ.Q new_state) σ.available_actions -
          σ.Q old_state action)) }

/-- Attributes of `SarsaLambda` (src/freeway/src/agents.py line 307).
`Ekeys` records which state keys have been materialised in the
eligibility-trace defaultdict `E`, in insertion order; `for s in self.E`
iterates exactly over them. -/
structure SarsaLambdaState where
  gamma : ℚ
  available_actions : ℕ
  N0 : ℚ
  lambd : ℚ
  Q : ℕ → ℕ → ℚ
  state_visits : ℕ → ℕ
  Nsa : ℕ → ℕ → ℕ
  E : ℕ → ℕ → ℚ
  Ekeys : List ℕ

/-- `SarsaLambda.act` (lines 319-333): like `QLearning.act` but it also
increments the eligibility trace of the chosen pair; accessing `E[state]`
materialises the key `state` in the dict. -/
def SarsaLambda.act (σ : SarsaLambdaState) (state : ℕ) (u : ℚ) (uact : ℕ) :
    ℕ × SarsaLambdaState :=
  let epsilon := σ.N0 / (σ.N0 + (σ.state_visits state : ℚ))
  let action :=
    if npChoice2 epsilon u ≠ 0 then uact
    else if npMax (σ.Q state) σ.available_actions = 0 ∧
            npMin (σ.Q state) σ.available_actions = 0 then 1
    else npArgmax (σ.Q state) σ.available_actions
  (action,
    { σ with
      state_visits := upd1 σ.state_visits state (σ.state_visits state + 1)
      Nsa := upd2 σ.Nsa state action (σ.Nsa state action + 1)
      E := upd2 σ.E state action (σ.E state action + 1)
      Ekeys := if state ∈ σ.Ekeys then σ.Ekeys else σ.Ekeys ++ [state] })

/-- `SarsaLambda.update_Q` (lines 335-342).  `delta` and `alpha` are
computed once, before the nested loop; the loop body literally executes
`self.Q[old_s][old_a] += alpha * delta * self.E[s][a]` followed by
`self.E[s][a] = self.gamma * self.lambd * self.E[s][a]` for every key `s`
of `E` and every action `a` in range. -/
def SarsaLambda.update_Q (σ : SarsaLambdaState)
    (old_s new_s old_a new_a : ℕ) (reward : ℚ) : SarsaLambdaState :=
  let delta := reward + σ.gamma * σ.Q new_s new_a - σ.Q old_s old_a
  let alpha : ℚ := 1 / ((σ.Nsa old_s old_a : ℚ))
  let pairs := σ.Ekeys.flatMap (fun s => (List.range σ.available_actions).map (fun a => (s, a)))
  let QE := pairs.foldl
    (fun (QE : (ℕ → ℕ → ℚ) × (ℕ → ℕ → ℚ)) (sa : ℕ × ℕ) =>
      (upd2 QE.1 old_s old_a
          (QE.1 old_s old_a + alpha * delta * QE.2 sa.1 sa.2),
        upd2 QE.2 sa.1 sa.2 (σ.gamma * σ.lambd * QE.2 sa.1 sa.2)))
    (σ.Q, σ.E)
  { σ with Q := QE.1, E := QE.2 }

/-- Attributes of `SarsaLFAADAM` (src/freeway/src/agents.py line 230).
The weight vector, drawn by `np.random.rand`, is supplied as an oracle. -/
structure SarsaLFAADAMState where
  gamma : ℚ
  available_actions : ℕ
  N0 : ℚ
  alpha : ℚ
  lamb : ℚ
  weights : List ℚ
  state_visits : ℕ → ℕ
  m : ℚ
  v : ℚ
  beta_1 : ℚ
  beta_2 : ℚ
  epsilon : ℚ

/-- `SarsaLFAADAM.__init__` (lines 231-252), following source order: the
constructor argument is stored into `self.alpha`, and the Adam block at
the end of the constructor then reassigns `self.alpha = 0.001`, along
with `m`, `v`, `beta_1`, `beta_2` and `epsilon = 10e-5`.  The Adam fields
are given placeholder value 0 in the intermediate state, mirroring that
they do not exist before their first assignment. -/
def SarsaLFAADAM.init (gamma : ℚ) (state_size : ℕ) (available_actions : ℕ)
    (N0 alpha lamb : ℚ) (weightsRand : List ℚ) : SarsaLFAADAMState :=
  let s1 : SarsaLFAADAMState :=
    { gamma := gamma
      available_actions := available_actions
      N0 := N0
      alpha := alpha
      lamb := lamb
      weights := weightsRand
      state_visits := fun _ => 0
      m := 0, v := 0, beta_1 := 0, beta_2 := 0, epsilon := 0 }
  { s1 with
    m := 0
    v := 0
    alpha := 1/1000
    beta_1 := 9/10
    beta_2 := 999/1000
    epsilon := 10 * (1/100000) }

/-- `SarsaLFAADAM.adam` (lines 265-270).  `sqrtFn` abstracts the single
irrational primitive `np.sqrt`; everything else is rational arithmetic.
Returns the step together with the updated accumulator state. -/
def SarsaLFAADAM.adam (sqrtFn : ℚ → ℚ) (σ : SarsaLFAADAMState) (g : ℚ)
    (t : ℕ) : ℚ × SarsaLFAADAMState :=
  let m := σ.beta_1 * σ.m + (1 - σ.beta_1) * g
  let v := σ.beta_2 * σ.v + (1 - σ.beta_2) * g ^ 2
  let m_hat := m / (1 - σ.beta_1 ^ t)
  let v_hat := v / (1 - σ.beta_2 ^ t)
  (σ.alpha * m_hat / (sqrtFn v_hat + σ.epsilon),
    { σ with m := m, v := v })

end Freeway

namespace Marianna

/-- `QLearning.act` from the second copy
(src/marianna/project01-rl/src/agents.py, lines 86-101).  It differs from
the freeway copy in one place: the explore draw samples from
`np.arange(self.available_actions)` while still passing the two-element
probability vector `p=[1 - epsilon, epsilon]`, so numpy raises
`ValueError` whenever `available_actions` is not 2. -/
def QLearning.act (σ : Freeway.QLState) (state : ℕ) (u : ℚ) (uact : ℕ) :
    Except String (ℕ × Freeway.QLState) :=
  let epsilon := σ.N0 / (σ.N0 + (σ.state_visits state : ℚ))
  match npChoiceProb σ.available_actions epsilon u with
  | Except.error e => Except.error e
  | Except.ok d =>
    let action :=
      if d ≠ 0 then uact
      else if npMax (σ.Q state) σ.available_actions = 0 ∧
              npMin (σ.Q state) σ.available_actions = 0 then 1
      else npArgmax (σ.Q state) σ.available_actions
    Except.ok (action,
      { σ with
        state_visits := upd1 σ.state_visits state (σ.state_visits state + 1)
        Nsa := upd2 σ.Nsa state action (σ.Nsa state action + 1) })

end Marianna

/-- Concrete `QLearning` instance: two actions, one recorded visit of the
pair (0, 0). -/
def qlNsaEx : Freeway.QLState :=
  { gamma := 1/2
    available_actions := 2
    N0 := 1
    Q := fun _ _ => 0
    state_visits := fun _ => 0
    Nsa := fun s a => if s = 0 ∧ a = 0 then 1 else 0 }

/-- Concrete `QLearning` instance with `gamma = 0`, value estimate 4 and
two recorded visits at the pair (0, 0). -/
def qlGamma0Ex : Freeway.QLState :=
  { gamma := 0
    available_actions := 2
    N0 := 1
    Q := fun s a => if s = 0 ∧ a = 0 then 4 else 0
    state_visits := fun _ => 0
    Nsa := fun s a => if s = 0 ∧ a = 0 then 2 else 0 }

/-- Concrete fresh `QLearning` instance: three actions, nothing visited. -/
def qlFreshEx : Freeway.QLState :=
  { gamma := 1/2
    available_actions := 3
    N0 := 1
    Q := fun _ _ => 0
    state_visits := fun _ => 0
    Nsa := fun _ _ => 0 }

/-- Concrete `QLearning` instance whose state 0 has one prior visit and an
all-zero value row. -/
def qlVisitedEx : Freeway.QLState :=
  { gamma := 1/2
    available_actions := 2
    N0 := 1
    Q := fun _ _ => 0
    state_visits := fun s => if s = 0 then 1 else 0
    Nsa := fun _ _ => 0 }

/-- Concrete marianna `QLearning` instance with three available actions. -/
def mql3Ex : Freeway.QLState :=
  { gamma := 1/2
    available_actions := 3
    N0 := 10
    Q := fun _ _ => 0
    state_visits := fun _ => 0
    Nsa := fun _ _ => 0 }

/-- Concrete `SarsaLambda` instance: one available action, states 0 and 1
materialised in the trace dict, both with trace value 1, and one recorded
visit of the pair (0, 0). -/
def slEx : Freeway.SarsaLambdaState :=
  { gamma := 1
    available_actions := 1
    N0 := 1
    lambd := 1
    Q := fun _ _ => 0
    state_visits := fun _ => 0
    Nsa := fun s a => if s = 0 ∧ a = 0 then 1 else 0
    E := fun s _ => if s = 0 ∨ s = 1 then 1 else 0
    Ekeys := [0, 1] }

/-!
Helper lemmas about the numpy primitives.
-/

theorem npMax_succ (f : ℕ → ℚ) (k : ℕ) :
    npMax f (k + 1) = max (npMax f k) (f k) := by
  unfold npMax
  rw [List.range_succ, List.foldl_append]
  rfl

theorem npMax_isUB (f : ℕ → ℚ) : ∀ k j, j < k → f j ≤ npMax f k := by
  intro k
  induction k with
  | zero => intro j h; exact absurd h (Nat.not_lt_zero j)
  | succ n ih =>
    intro j h
    rw [npMax_succ]
    rcases Nat.lt_succ_iff_lt_or_eq.mp h with h2 | h2
    · exact le_trans (ih j h2) (le_max_left _ _)
    · subst h2; exact le_max_right _ _

theorem npMax_attained (f : ℕ → ℚ) :
    ∀ k, 1 ≤ k → ∃ j, j < k ∧ npMax f k = f j := by
  intro k
  induction k with
  | zero => intro h; exact absurd h (by omega)
  | succ n ih =>
    intro _
    by_cases hn : 1 ≤ n
    · obtain ⟨j, hj, hEq⟩ := ih hn
      rw [npMax_succ]
      rcases le_total (npMax f n) (f n) with h | h
      · exact ⟨n, Nat.lt_succ_self n, max_eq_right h⟩
      · exact ⟨j, Nat.lt_succ_of_lt hj, by rw [max_eq_left h, hEq]⟩
    · have hn0 : n = 0 := by omega
      subst hn0
      exact ⟨0, Nat.one_pos, by rw [npMax_succ]; simp [npMax]⟩

/-- C6: tabular Q-learning replaces `Q[old_state][action]` by
`Q[old_state][action] + alpha * (reward + gamma * max_a Q[new_state][a] -
Q[old_state][action])` with `alpha = 1 / Nsa[old_state][action]`, for any
pair previously recorded by `act` (so `Nsa` is at least 1), and leaves
every other table entry unchanged. -/
theorem qlearning_update_rule (σ : Freeway.QLState)
    (old_state new_state action : ℕ) (reward : ℚ)
    (hn : 1 ≤ σ.Nsa old_state action) (hk : 1 ≤ σ.available_actions) :
    ∃ M : ℚ,
      (∀ j, j < σ.available_actions → σ.Q new_state j ≤ M) ∧
      (∃ j, j < σ.available_actions ∧ M = σ.Q new_state j) ∧
      (Freeway.QLearning.update_Q σ old_state new_state action reward).Q
          old_state action
        = σ.Q old_state action
          + (1 / (σ.Nsa old_state action : ℚ))
            * (reward + σ.gamma * M - σ.Q old_state action) ∧
      (∀ s2 a2, ¬(s2 = old_state ∧ a2 = action) →
        (Freeway.QLearning.update_Q σ old_state new_state action reward).Q s2 a2
          = σ.Q s2 a2) := by
  refine ⟨npMax (σ.Q new_state) σ.available_actions, ?_, ?_, ?_, ?_⟩
  · intro j hj
    exact npMax_isUB (σ.Q new_state) σ.available_actions j hj
  · obtain ⟨j, hj, hEq⟩ := npMax_attained (σ.Q new_state) σ.available_actions hk
    exact ⟨j, hj, hEq⟩
  · simp [Freeway.QLearning.update_Q, upd2]
  · intro s2 a2 h
    simp [Freeway.QLearning.update_Q, upd2, h]

/-- Witness for `qlearning_update_rule` at a concrete instance. -/
theorem qlearning_update_rule_witness :
    ∃ M : ℚ,
      (∀ j, j < qlNsaEx.available_actions → qlNsaEx.Q 1 j ≤ M) ∧
      (∃ j, j < qlNsaEx.available_actions ∧ M = qlNsaEx.Q 1 j) ∧
      (Freeway.QLearning.update_Q qlNsaEx 0 1 0 3).Q 0 0
        = qlNsaEx.Q 0 0
          + (1 / (qlNsaEx.Nsa 0 0 : ℚ)) * (3 + qlNsaEx.gamma * M - qlNsaEx.Q 0 0) ∧
      (∀ s2 a2, ¬(s2 = 0 ∧ a2 = 0) →
        (Freeway.QLearning.update_Q qlNsaEx 0 1 0 3).Q s2 a2 = qlNsaEx.Q s2 a2) :=
  qlearning_update_rule qlNsaEx 0 1 0 3 (by simp [qlNsaEx]) (by simp [qlNsaEx])

/-- C9: with reward 0, `new_state = old_state` and `gamma = 0`, the
tabular update leaves the entry unchanged exactly when it is already 0,
changes it by exactly `alpha * (0 - Q[old][a])`, and otherwise moves it
strictly toward 0. -/
theorem qlearning_update_gamma0 (σ : Freeway.QLState) (os a : ℕ)
    (hg : σ.gamma = 0) (hn : 1 ≤ σ.Nsa os a) :
    ((Freeway.QLearning.update_Q σ os os a 0).Q os a = σ.Q os a ↔ σ.Q os a = 0) ∧
    (Freeway.QLearning.update_Q σ os os a 0).Q os a
      = σ.Q os a + (1 / (σ.Nsa os a : ℚ)) * (0 - σ.Q os a) ∧
    (σ.Q os a ≠ 0 →
      |(Freeway.QLearning.update_Q σ os os a 0).Q os a| < |σ.Q os a|) := by
  have hn1 : (1 : ℚ) ≤ (σ.Nsa os a : ℚ) := by exact_mod_cast hn
  have hnpos : (0 : ℚ) < (σ.Nsa os a : ℚ) := lt_of_lt_of_le one_pos hn1
  have hα0 : (0 : ℚ) < 1 / (σ.Nsa os a : ℚ) := by positivity
  have hα1 : 1 / (σ.Nsa os a : ℚ) ≤ 1 := by
    rw [div_le_one hnpos]; exact hn1
  have hval : (Freeway.QLearning.update_Q σ os os a 0).Q os a
      = σ.Q os a + (1 / (σ.Nsa os a : ℚ)) * (0 - σ.Q os a) := by
    simp [Freeway.QLearning.update_Q, upd2, hg]
  refine ⟨?_, hval, ?_⟩
  · rw [hval]
    constructor
    · intro h
      have h2 : (1 / (σ.Nsa os a : ℚ)) * σ.Q os a = 0 := by linarith
      rcases mul_eq_zero.mp h2 with h3 | h3
      · exact absurd h3 (ne_of_gt hα0)
      · exact h3
    · intro h; rw [h]; ring
  · intro hq
    rw [hval]
    have hrw : σ.Q os a + (1 / (σ.Nsa os a : ℚ)) * (0 - σ.Q os a)
        = (1 - 1 / (σ.Nsa os a : ℚ)) * σ.Q os a := by ring
    rw [hrw, abs_mul, abs_of_nonneg (by linarith : (0:ℚ) ≤ 1 - 1 / (σ.Nsa os a : ℚ))]
    exact mul_lt_of_lt_one_left (abs_pos.mpr hq) (by linarith)

/-- Witness for `qlearning_update_gamma0` at a concrete instance. -/
theorem qlearning_update_gamma0_witness :
    ((Freeway.QLearning.update_Q qlGamma0Ex 0 0 0 0).Q 0 0 = qlGamma0Ex.Q 0 0
        ↔ qlGamma0Ex.Q 0 0 = 0) ∧
    (Freeway.QLearning.update_Q qlGamma0Ex 0 0 0 0).Q 0 0
      = qlGamma0Ex.Q 0 0 + (1 / (qlGamma0Ex.Nsa 0 0 : ℚ)) * (0 - qlGamma0Ex.Q 0 0) ∧
    (qlGamma0Ex.Q 0 0 ≠ 0 →
      |(Freeway.QLearning.update_Q qlGamma0Ex 0 0 0 0).Q 0 0| < |qlGamma0Ex.Q 0 0|) :=
  qlearning_update_gamma0 qlGamma0Ex 0 0 rfl (by simp [qlGamma0Ex])

/-- C10: the `SarsaLFAADAM` constructor overwrites the stored step size
with 0.001 whatever `alpha` argument is passed, so the whole constructed
state, and hence every `adam` step computed from it, is independent of
that argument. -/
theorem sarsa_adam_alpha_override (sqrtFn : ℚ → ℚ) (gamma : ℚ)
    (state_size available_actions : ℕ) (N0 a1 a2 lamb : ℚ) (w : List ℚ)
    (g : ℚ) (t : ℕ) :
    (Freeway.SarsaLFAADAM.init gamma state_size available_actions N0 a1 lamb w).alpha
      = 1/1000 ∧
    Freeway.SarsaLFAADAM.adam sqrtFn
        (Freeway.SarsaLFAADAM.init gamma state_size available_actions N0 a1 lamb w) g t
      = Freeway.SarsaLFAADAM.adam sqrtFn
        (Freeway.SarsaLFAADAM.init gamma state_size available_actions N0 a2 lamb w) g t :=
  ⟨rfl, rfl⟩

/-- C8 counterexample: the stored Adam epsilon is not 1e-5. -/
theorem adam_epsilon_not_1e5 :
    (Freeway.SarsaLFAADAM.init 1 2 3 1 1 1 []).epsilon ≠ 1/100000 := by
  norm_num [Freeway.SarsaLFAADAM.init]

/-- C8 amended: the source sets `self.epsilon = 10e-5`, which is 1e-4;
the Adam denominator adds it to the (nonnegative) square root, so the
denominator is positive. -/
theorem adam_epsilon_value (gamma : ℚ) (state_size available_actions : ℕ)
    (N0 alpha lamb : ℚ) (w : List ℚ) :
    (Freeway.SarsaLFAADAM.init gamma state_size available_actions N0 alpha lamb w).epsilon
      = 1/10000 ∧
    ∀ s : ℚ, 0 ≤ s →
      0 < s + (Freeway.SarsaLFAADAM.init gamma state_size available_actions
        N0 alpha lamb w).epsilon := by
  constructor
  · norm_num [Freeway.SarsaLFAADAM.init]
  · intro s hs
    have h : (Freeway.SarsaLFAADAM.init gamma state_size available_actions
        N0 alpha lamb w).epsilon = 1/10000 := by
      norm_num [Freeway.SarsaLFAADAM.init]
    rw [h]
    linarith

/-- Witness for `adam_epsilon_value` at a concrete instance. -/
theorem adam_epsilon_value_witness :
    (Freeway.SarsaLFAADAM.init 1 2 3 1 1 1 []).epsilon = 1/10000 ∧
    0 < (0 : ℚ) + (Freeway.SarsaLFAADAM.init 1 2 3 1 1 1 []).epsilon :=
  ⟨(adam_epsilon_value 1 2 3 1 1 1 []).1,
    (adam_epsilon_value 1 2 3 1 1 1 []).2 0 le_rfl⟩

/-- C3 counterexample: the default of the greedy policy table `pi` is the
action 1, not 2. -/
theorem pi_default_not_two :
    (Freeway.MonteCarloControl.init 1 3 10).pi 0 = 1 ∧
    (Freeway.MonteCarloControl.init 1 3 10).pi 0 ≠ 2 := by
  exact ⟨rfl, by decide⟩

/-- C3 amended: before any evidence the policy table maps every state to
the forward-bias action 1, and when the explore draw fails and all value
estimates of the state are exactly zero, `QLearning.act` selects that
same action 1. -/
theorem forward_bias_is_one (gamma N0 : ℚ) (k s : ℕ)
    (σ : Freeway.QLState) (state : ℕ) (u : ℚ) (uact : ℕ)
    (hdraw : npChoice2 (σ.N0 / (σ.N0 + (σ.state_visits state : ℚ))) u = 0)
    (hmax : npMax (σ.Q state) σ.available_actions = 0)
    (hmin : npMin (σ.Q state) σ.available_actions = 0) :
    (Freeway.MonteCarloControl.init gamma k N0).pi s = 1 ∧
    (Freeway.QLearning.act σ state u uact).1 = 1 := by
  refine ⟨rfl, ?_⟩
  simp [Freeway.QLearning.act, hdraw, hmax, hmin]

/-- Witness for `forward_bias_is_one` at a concrete instance. -/
theorem forward_bias_is_one_witness :
    (Freeway.MonteCarloControl.init 1 3 10).pi 7 = 1 ∧
    (Freeway.QLearning.act qlVisitedEx 0 0 5).1 = 1 :=
  forward_bias_is_one 1 10 3 7 qlVisitedEx 0 0 5
    (by norm_num [npChoice2, qlVisitedEx])
    (by norm_num [npMax, qlVisitedEx, List.range_succ])
    (by norm_num [npMin, qlVisitedEx, List.range_succ])

/-- C4 counterexample: on a never-visited state the returned action is
the uniform explore draw, so two different draws give two different
actions, neither of them forced to the bias action 1. -/
theorem act_unvisited_is_random :
    (Freeway.QLearning.act qlFreshEx 0 0 0).1 = 0 ∧
    (Freeway.QLearning.act qlFreshEx 0 0 2).1 = 2 ∧
    (0 : ℕ) ≠ 1 ∧ (2 : ℕ) ≠ 1 := by
  refine ⟨?_, ?_, by decide, by decide⟩ <;>
    norm_num [Freeway.QLearning.act, npChoice2, qlFreshEx]

/-- C4 amended: for a never-visited state (and `N0` nonzero) the decayed
epsilon is exactly 1, so `act` always takes the exploration branch and
returns whatever the uniform action draw produced. -/
theorem act_unvisited_explores (σ : Freeway.QLState) (state : ℕ)
    (u : ℚ) (uact : ℕ) (hv : σ.state_visits state = 0) (hN : σ.N0 ≠ 0)
    (hu : 0 ≤ u) :
    (Freeway.QLearning.act σ state u uact).1 = uact := by
  have h1 : σ.N0 / (σ.N0 + ((σ.state_visits state : ℕ) : ℚ)) = 1 := by
    rw [hv]
    simp [div_self hN]
  simp [Freeway.QLearning.act, npChoice2, h1, not_lt.mpr hu]

/-- Witness for `act_unvisited_explores` at a concrete instance. -/
theorem act_unvisited_explores_witness :
    qlFreshEx.state_visits 0 = 0 ∧ qlFreshEx.N0 ≠ 0 ∧ (0 : ℚ) ≤ 0 ∧
    (Freeway.QLearning.act qlFreshEx 0 0 7).1 = 7 :=
  ⟨rfl, by norm_num [qlFreshEx], le_rfl,
    act_unvisited_explores qlFreshEx 0 0 7 rfl (by norm_num [qlFreshEx]) le_rfl⟩

/-- C5 counterexample: `MonteCarloControl.act` increments neither the
state visit counter nor `Nsa`, although the agent later uses
`alpha = 1 / Nsa` in `update_policy`. -/
theorem mcc_act_no_increment :
    (Freeway.MonteCarloControl.init 1 3 10).state_visits 0 = 0 ∧
    (Freeway.MonteCarloControl.init 1 3 10).Nsa 0 0 = 0 ∧
    ((Freeway.MonteCarloControl.act (Freeway.MonteCarloControl.init 1 3 10)
        0 0 0).2).state_visits 0 = 0 ∧
    ((Freeway.MonteCarloControl.act (Freeway.MonteCarloControl.init 1 3 10)
        0 0 0).2).Nsa 0 0 = 0 ∧
    (0 : ℕ) ≠ 0 + 1 := by
  exact ⟨rfl, rfl, rfl, rfl, by decide⟩

/-- C5 amended: `QLearning.act` increments the visit counter of the acted
state and the `Nsa` counter of the chosen pair by exactly one per call,
while `MonteCarloControl.act` leaves the agent state entirely unchanged
(its counters are incremented inside `update_policy` instead). -/
theorem act_increments_counters (σ : Freeway.QLState) (state : ℕ) (u : ℚ)
    (uact : ℕ) (σm : Freeway.MCCState) (sm : ℕ) (um : ℚ) (uactm : ℕ) :
    (Freeway.QLearning.act σ state u uact).2.state_visits state
      = σ.state_visits state + 1 ∧
    (Freeway.QLearning.act σ state u uact).2.Nsa state
        (Freeway.QLearning.act σ state u uact).1
      = σ.Nsa state (Freeway.QLearning.act σ state u uact).1 + 1 ∧
    (Freeway.MonteCarloControl.act σm sm um uactm).2 = σm := by
  refine ⟨?_, ?_, rfl⟩ <;> simp [Freeway.QLearning.act, upd1, upd2]

/-- C7 counterexample: with three available actions the marianna
`QLearning.act` does not complete; the explore draw raises numpy's size
mismatch error. -/
theorem mql_act_three_errors :
    Marianna.QLearning.act mql3Ex 0 0 0
      = Except.error ("a and p must have same size") := by
  rfl

/-- C7 amended: whenever `available_actions` differs from the probability
vector length 2 (in particular for every `available_actions > 2`), the
explore draw of the marianna `QLearning.act` raises `ValueError` and the
call does not complete, so no exploration decision is made at all. -/
theorem mql_act_errors (σ : Freeway.QLState) (state : ℕ) (u : ℚ) (uact : ℕ)
    (hk : 2 < σ.available_actions) :
    Marianna.QLearning.act σ state u uact
      = Except.error ("a and p must have same size") := by
  have h2 : ¬ σ.available_actions = 2 := by omega
  simp [Marianna.QLearning.act, npChoiceProb, h2]

/-- Witness for `mql_act_errors` at a concrete instance. -/
theorem mql_act_errors_witness :
    2 < mql3Ex.available_actions ∧
    Marianna.QLearning.act mql3Ex 5 (1/3) 2
      = Except.error ("a and p must have same size") :=
  ⟨by decide, mql_act_errors mql3Ex 5 (1/3) 2 (by decide)⟩

/-- C1: evaluation of `SarsaLambda.update_Q` at an input where two states
carry a nonzero trace.  With `gamma = lambd = alpha = delta = 1` the
claimed rule would set the entry of every nonzero-trace pair to 1; the
code instead leaves the pair (1, 0) untouched and accumulates both trace
contributions onto the entry of (old_s, old_a) = (0, 0). -/
theorem sarsa_lambda_update_divergence :
    slEx.E 1 0 = 1 ∧
    (Freeway.SarsaLambda.update_Q slEx 0 1 0 0 1).Q 1 0 = 0 ∧
    (Freeway.SarsaLambda.update_Q slEx 0 1 0 0 1).Q 0 0 = 2 ∧
    (Freeway.SarsaLambda.update_Q slEx 0 1 0 0 1).E 0 0 = 1 ∧
    (Freeway.SarsaLambda.update_Q slEx 0 1 0 0 1).E 1 0 = 1 := by
  refine ⟨by norm_num [slEx], ?_, ?_, ?_, ?_⟩ <;>
    norm_num [Freeway.SarsaLambda.update_Q, slEx, upd2, List.range_succ]

/-- C2 amended: one pass of `MonteCarloControl.update_policy` on a fresh
agent over an episode of length 3 with reward array `[r1, r2, r3]` sets
`Q[s0][a0]` to `gamma * r3 + r2` (the code reads rewards at offset
`t + 1` into the same array, so `r1` is never consumed), provided the
two updated pairs are distinct. -/
theorem mc_update_episode3 (g N0 : ℚ) (k : ℕ) (s0 s1 s2 a0 a1 a2 : ℕ)
    (r1 r2 r3 : ℚ) (hpair : ¬(s0 = s1 ∧ a0 = a1)) :
    (Freeway.MonteCarloControl.update_policy
        (Freeway.MonteCarloControl.init g k N0)
        { S := [s0, s1, s2], A := [a0, a1, a2], R := [r1, r2, r3], length := 3 }).Q
        s0 a0
      = g * r3 + r2 := by
  norm_num [Freeway.MonteCarloControl.update_policy,
    Freeway.MonteCarloControl.updateStep, Freeway.MonteCarloControl.init,
    List.range_succ, upd1, upd2, hpair]

/-- Witness for `mc_update_episode3` at a concrete instance. -/
theorem mc_update_episode3_witness :
    ¬((0 : ℕ) = 1 ∧ (0 : ℕ) = 0) ∧
    (Freeway.MonteCarloControl.update_policy
        (Freeway.MonteCarloControl.init (1/2) 3 10)
        { S := [0, 1, 2], A := [0, 0, 0], R := [5, 0, 1], length := 3 }).Q 0 0
      = (1/2) * 1 + 0 :=
  ⟨by decide, mc_update_episode3 (1/2) 10 3 0 1 2 0 0 0 5 0 1 (by decide)⟩

/-- C2 counterexample: on the concrete fresh agent with `gamma = 1/2` and
rewards `[5, 0, 1]`, the resulting `Q[s0][a0]` is `1/2`, not the claimed
`g * g * r3 + g * r2 = 1/4`. -/
theorem mc_update_episode3_not_claimed :
    (Freeway.MonteCarloControl.update_policy
        (Freeway.MonteCarloControl.init (1/2) 3 10)
        { S := [0, 1, 2], A := [0, 0, 0], R := [5, 0, 1], length := 3 }).Q 0 0
      ≠ (1/2) * (1/2) * 1 + (1/2) * 0 := by
  norm_num [Freeway.MonteCarloControl.update_policy,
    Freeway.MonteCarloControl.updateStep, Freeway.MonteCarloControl.init,
    List.range_succ, upd1, upd2]
